import Mathlib

/-!
Verification of the Opus audio transition engine and offline analysis pipeline.

This development shallowly embeds the audio core of the repository:

* `AudiophileCrossfadeController.calculateCrossfadeGain` (crossfade curves),
* `AdvancedSilenceDetector.getTrimPoints` / `detectEncoderArtifacts` /
  `checkGaplessMarkers` (silence trim policy),
* `BeatDetector.estimateTempo` (tempo histogram),
* `LUFSAnalyzer.analyzeLoudness` and the main-process
  `audio-analysis-service` (loudness, failure defaults, request dedup),
* the dual-voice `CrossfadeController` state machine.

Real-valued signal math is embedded over `Real`; bookkeeping arithmetic that
the JavaScript engine performs on plain numbers is embedded over `Rat`.
JavaScript `Math.round` is embedded as `jsRound` (round half towards plus
infinity, the JS semantics). `Float32Array` absence of NaN/Infinity inputs is
assumed, as the decoded-PCM contract guarantees finite samples.
-/

namespace Opus

/-- JavaScript `Math.round`: round half up (towards plus infinity). -/
def jsRound (x : ℚ) : ℤ := ⌊x + 1 / 2⌋

/-! ## Crossfade curves (`AudiophileCrossfadeController.calculateCrossfadeGain`) -/

/-- The five crossfade curve kinds of the `CrossfadeCurve` string union. -/
inductive CrossfadeCurve
  | linear
  | equalPower
  | sCurve
  | logarithmic
  | exponential
deriving DecidableEq

/-- Result pair of `calculateCrossfadeGain`. -/
structure GainPair where
  fadeOut : ℝ
  fadeIn : ℝ

/-- Embedding of `AudiophileCrossfadeController.calculateCrossfadeGain`.
`progress` is clamped to `[0, 1]` first, then the selected curve is applied.
The TypeScript `default` branch is unreachable for the five-element union, so
the match is total over `CrossfadeCurve`. -/
noncomputable def calculateCrossfadeGain (progressArg : ℝ) (curve : CrossfadeCurve) : GainPair :=
  let progress := max 0 (min 1 progressArg)
  match curve with
  | .linear =>
      { fadeOut := 1 - progress, fadeIn := progress }
  | .equalPower =>
      { fadeOut := Real.cos (progress * Real.pi / 2)
        fadeIn := Real.sin (progress * Real.pi / 2) }
  | .sCurve =>
      let sCurveProgress := progress * progress * (3 - 2 * progress)
      { fadeOut := 1 - sCurveProgress, fadeIn := sCurveProgress }
  | .logarithmic =>
      let logIn := Real.logb 10 (1 + progress * 9) / Real.logb 10 10
      let logOut := Real.logb 10 (1 + (1 - progress) * 9) / Real.logb 10 10
      { fadeOut := logOut, fadeIn := logIn }
  | .exponential =>
      let expIn := (Real.exp (progress * 2) - 1) / (Real.exp 2 - 1)
      let expOut := (Real.exp ((1 - progress) * 2) - 1) / (Real.exp 2 - 1)
      { fadeOut := expOut, fadeIn := expIn }

/-! ## Silence trim policy (`AdvancedSilenceDetector`) -/

/-- The `SilenceMetrics` record of `AdvancedSilenceDetector`.
Durations are in seconds, encoder delay/padding in samples. -/
structure SilenceMetrics where
  startSilence : ℚ
  endSilence : ℚ
  startFadeIn : ℚ
  endFadeOut : ℚ
  hasGaplessMarkers : Bool
  encoderDelay : ℚ
  encoderPadding : ℚ
deriving DecidableEq, Repr

/-- Result of `AdvancedSilenceDetector.getTrimPoints`. -/
structure TrimPoints where
  startTrim : ℚ
  endTrim : ℚ
deriving DecidableEq, Repr

/-- Embedding of `AdvancedSilenceDetector.getTrimPoints`; `48000` is
`config.sampleRate`, `2` the per-end silence cap, `0.5` the fade
suppression threshold. -/
def getTrimPoints (metrics : SilenceMetrics) : TrimPoints :=
  if metrics.hasGaplessMarkers then
    { startTrim := metrics.encoderDelay / 48000
      endTrim := metrics.encoderPadding / 48000 }
  else
    let startTrim0 := min metrics.startSilence 2
    let endTrim0 := min metrics.endSilence 2
    let startTrim := if metrics.startFadeIn > 1 / 2 then 0 else startTrim0
    let endTrim := if metrics.endFadeOut > 1 / 2 then 0 else endTrim0
    { startTrim := startTrim, endTrim := endTrim }

/-- Channel-0 sample data of a decoded buffer, with its sample rate, as
consumed by `detectEncoderArtifacts` and `checkGaplessMarkers`. -/
structure ChannelBuffer where
  samples : List ℚ
  sampleRate : ℚ
deriving DecidableEq, Repr

/-- Duration in seconds of a decoded buffer (`length / sampleRate`). -/
def bufferDuration (buf : ChannelBuffer) : ℚ :=
  (buf.samples.length : ℚ) / buf.sampleRate

/-- Count of leading samples with `|x| < 0.00001` stopping at the first
louder sample (the `break` in the scan loops of `detectEncoderArtifacts`). -/
def countLeadingNearZero : List ℚ → ℕ
  | [] => 0
  | x :: rest => if |x| < 1 / 100000 then countLeadingNearZero rest + 1 else 0

/-- Embedding of `AdvancedSilenceDetector.detectEncoderArtifacts`: scan the
first and last `3000` samples of channel 0 for near-zero runs, then rescale
from the buffer sample rate to 44100-sample units with `Math.round`.
Returns `(delay, padding)`. -/
def detectEncoderArtifacts (buf : ChannelBuffer) : ℚ × ℚ :=
  let delayRaw : ℕ := countLeadingNearZero (buf.samples.take 3000)
  let paddingRaw : ℕ := countLeadingNearZero (buf.samples.reverse.take 3000)
  let rateScale : ℚ := buf.sampleRate / 44100
  ((jsRound ((delayRaw : ℚ) / rateScale) : ℤ), (jsRound ((paddingRaw : ℚ) / rateScale) : ℤ))

/-- Embedding of `AdvancedSilenceDetector.checkGaplessMarkers`: the average
absolute amplitude of the last (up to) 100 samples exceeds `0.01`. An empty
buffer yields `0 / 0`, which is `NaN` in JavaScript and `0` over `Rat`; both
fail the `> 0.01` comparison identically. -/
def checkGaplessMarkers (buf : ChannelBuffer) : Bool :=
  let lastSamples := buf.samples.drop (buf.samples.length - 100)
  let avgAmplitude := (lastSamples.map (fun v => |v|)).sum / (lastSamples.length : ℚ)
  avgAmplitude > 1 / 100

/-! ## Tempo estimation (`BeatDetector.estimateTempo`) -/

/-- Embedding of `BeatDetector.estimateTempo` over the onset time list.
Config constants: `minBPM = 60`, `maxBPM = 200`, 100 histogram bins.
Returns `(bpm, confidence)`. -/
def estimateTempo (onsets : List ℚ) : ℚ × ℚ :=
  if onsets.length < 10 then (120, 0)
  else
    let intervals := (onsets.zip onsets.tail).map fun p => p.2 - p.1
    let minInterval : ℚ := 60 / 200
    let maxInterval : ℚ := 60 / 60
    let numBins : ℕ := 100
    let binSize : ℚ := (maxInterval - minInterval) / (numBins : ℚ)
    let histogram : List ℚ := intervals.foldl
      (fun h interval =>
        if minInterval ≤ interval ∧ interval ≤ maxInterval then
          let bin : ℤ := ⌊(interval - minInterval) / binSize⌋
          if 0 ≤ bin ∧ bin < (numBins : ℤ) then
            h.set bin.toNat (h.getD bin.toNat 0 + 1)
          else h
        else h)
      (List.replicate numBins (0 : ℚ))
    let peak := (List.range numBins).foldl
      (fun (acc : ℚ × ℕ) i => if histogram.getD i 0 > acc.1 then (histogram.getD i 0, i) else acc)
      (0, 0)
    let maxCount := peak.1
    let maxBin := peak.2
    let peakInterval := minInterval + ((maxBin : ℚ) + 1 / 2) * binSize
    let bpm := if peakInterval > 0 then 60 / peakInterval else 120
    let confidence := if intervals.length > 0 then maxCount / (intervals.length : ℚ) else 0
    ((jsRound bpm : ℤ), confidence)

/-! ## Dual-voice crossfade engine (`CrossfadeController`) -/

/-- Observable state of an `HTMLAudioElement` handle as used by the engine:
bound source path, element volume, playback position, reported duration
(`none` while metadata is unavailable, the JS `NaN`), and paused flag. -/
structure AudioElt where
  src : String
  volume : ℚ
  currentTime : ℚ
  duration : Option ℚ
  paused : Bool
deriving DecidableEq

/-- Enhancement metadata consumed by `loadTrack`/`preloadNextTrack`: the
`gainAdjustment` of `VolumeInfo` and the `startTrim` of `SilenceInfo`
(the two fields the engine reads). -/
structure EnhInfo where
  gainAdjustment : ℚ
  startTrim : ℚ
deriving DecidableEq

/-- One playback slot of the dual-voice engine (`voice1`/`voice2`). -/
structure Voice where
  audioH : Option AudioElt
  isActive : Bool
  isPlaying : Bool
  enhInfo : Option EnhInfo
deriving DecidableEq

/-- Engine-level transition phase (`"none" | "active" | "handoff"`). -/
inductive CrossfadePhase
  | none
  | active
  | handoff
deriving DecidableEq

/-- Mutable state of `CrossfadeController`. Callbacks and the recurring
time-update timer carry no voice state and are omitted. -/
structure CCState where
  voice1 : Voice
  voice2 : Voice
  crossfadeDuration : ℚ
  volume : ℚ
  isMuted : Bool
  isDestroyed : Bool
  enableAudioEnhancement : Bool
  crossfadeInProgress : Bool
  crossfadeStartTime : Option ℚ
  crossfadePhase : CrossfadePhase
deriving DecidableEq

/-- Field initializers of `CrossfadeController` (its construction state). -/
def initState : CCState :=
  { voice1 := { audioH := none, isActive := true, isPlaying := false, enhInfo := none }
    voice2 := { audioH := none, isActive := false, isPlaying := false, enhInfo := none }
    crossfadeDuration := 5
    volume := 1
    isMuted := false
    isDestroyed := false
    enableAudioEnhancement := false
    crossfadeInProgress := false
    crossfadeStartTime := none
    crossfadePhase := .none }

/-- The voice the `act1` discriminator designates as active
(`getActiveVoice` captures `voice1.isActive` at call time). -/
def readActive (s : CCState) (act1 : Bool) : Voice :=
  if act1 then s.voice1 else s.voice2

/-- The other voice (`getInactiveVoice`). -/
def readInactive (s : CCState) (act1 : Bool) : Voice :=
  if act1 then s.voice2 else s.voice1

/-- Write back the slot the discriminator designates as active. -/
def writeActive (s : CCState) (act1 : Bool) (v : Voice) : CCState :=
  if act1 then { s with voice1 := v } else { s with voice2 := v }

/-- Write back the slot the discriminator designates as inactive. -/
def writeInactive (s : CCState) (act1 : Bool) (v : Voice) : CCState :=
  if act1 then { s with voice2 := v } else { s with voice1 := v }

/-- `getActiveVoice` with the discriminator evaluated now. -/
def getActiveVoice (s : CCState) : Voice :=
  readActive s s.voice1.isActive

/-- Embedding of `createAudioElement`: a fresh paused element at the
configured volume (0 when muted). -/
def createAudioElement (s : CCState) (filePath : String) : AudioElt :=
  { src := filePath
    volume := if s.isMuted then 0 else s.volume
    currentTime := 0
    duration := none
    paused := true }

/-- Embedding of `stop`: pause and release both elements, clear playing
flags and all crossfade session state. Active flags are untouched. -/
def stop (s : CCState) : CCState :=
  { s with
    voice1 := { s.voice1 with audioH := none, isPlaying := false }
    voice2 := { s.voice2 with audioH := none, isPlaying := false }
    crossfadeInProgress := false
    crossfadeStartTime := none
    crossfadePhase := .none }

/-- Embedding of `loadTrack(track, options)`. The `enh` argument is the
outcome of the two enhancement analyses awaited when
`enableAudioEnhancement` is on (`Except.error` is the caught analysis
failure). Always binds the new element to `voice1` and makes it active. -/
def loadTrack (s : CCState) (filePath : String) (optDuration optVolume : ℚ)
    (enh : Except Unit EnhInfo) : CCState :=
  if s.isDestroyed then s
  else
    let s1 := { s with crossfadeDuration := optDuration, volume := optVolume }
    let s2 := stop s1
    let audioEl := createAudioElement s2 filePath
    let loaded : AudioElt × Option EnhInfo :=
      if s2.enableAudioEnhancement then
        match enh with
        | .ok info =>
            let normalizedVolume := (if s2.isMuted then 0 else s2.volume) * info.gainAdjustment
            let withVol := { audioEl with volume := max 0 (min 1 normalizedVolume) }
            (if info.startTrim > 1 / 10 then { withVol with currentTime := info.startTrim }
             else withVol, some info)
        | .error _ =>
            ({ audioEl with volume := if s2.isMuted then 0 else s2.volume }, s2.voice1.enhInfo)
      else ({ audioEl with volume := if s2.isMuted then 0 else s2.volume }, s2.voice1.enhInfo)
    { s2 with
      voice1 := { s2.voice1 with
        audioH := some loaded.1, isActive := true, isPlaying := false, enhInfo := loaded.2 }
      voice2 := { s2.voice2 with isActive := false } }

/-- Embedding of `preloadNextTrack(nextTrack)`: prepare the inactive voice
silently; skip when the same source is already bound; enhancement failures
are logged and ignored. -/
def preloadNextTrack (s : CCState) (filePath : String) (enh : Except Unit EnhInfo) : CCState :=
  if s.isDestroyed then s
  else
    let act1 := s.voice1.isActive
    let inact := readInactive s act1
    let alreadyPreloaded := match inact.audioH with
      | some el => decide (el.src = filePath)
      | none => false
    if alreadyPreloaded then s
    else
      let nextAudio := { createAudioElement s filePath with volume := 0 }
      let prepared : AudioElt × Option EnhInfo :=
        if s.enableAudioEnhancement then
          match enh with
          | .ok info =>
              (if info.startTrim > 1 / 10 then { nextAudio with currentTime := info.startTrim }
               else nextAudio, some info)
          | .error _ => (nextAudio, inact.enhInfo)
        else (nextAudio, inact.enhInfo)
      writeInactive s act1 { inact with audioH := some prepared.1, enhInfo := prepared.2 }

/-- Embedding of `completeCrossfade`: pause the outgoing voice, flip the
active flags, restore the configured volume on the incoming voice, clear
the session state, fire `onCrossfadeComplete`. -/
def completeCrossfade (s : CCState) : CCState :=
  let act1 := s.voice1.isActive
  let currentActive := readActive s act1
  let currentInactive := readInactive s act1
  let pausedActive := match currentActive.audioH with
    | some el => { currentActive with audioH := some { el with paused := true }, isPlaying := false }
    | none => currentActive
  let flippedActive := { pausedActive with isActive := false }
  let flippedInactive := { currentInactive with isActive := true }
  let restoredInactive := match flippedInactive.audioH with
    | some el =>
        { flippedInactive with audioH := some { el with volume := if s.isMuted then 0 else s.volume } }
    | none => flippedInactive
  let s1 := writeActive (writeInactive s act1 restoredInactive) act1 flippedActive
  { s1 with
    crossfadeInProgress := false
    crossfadePhase := .none
    crossfadeStartTime := none }

/-- Embedding of `scheduleCrossfade(nextTrack)`. Returns the post-call state
and `true` when the promise rejected. `now` is `Date.now()`; `readyOk`
models the bounded readiness wait (false = the 5 s timeout fired);
`playOk` models `inactiveVoice.audio.play()` resolving. The `catch` block
resets `crossfadeInProgress`/`crossfadePhase` before rethrowing. -/
def scheduleCrossfade (s : CCState) (filePath : String) (now : ℚ)
    (readyOk playOk : Bool) : CCState × Bool :=
  if s.isDestroyed || s.crossfadeInProgress then (s, true)
  else
    let s1 := { s with
      crossfadeInProgress := true
      crossfadePhase := .active
      crossfadeStartTime := some now }
    let act1 := s1.voice1.isActive
    let inact := readInactive s1 act1
    let needCreate := match inact.audioH with
      | some el => decide (el.src ≠ filePath)
      | none => true
    let afterLoad : CCState × Bool :=
      if needCreate then
        let nextAudio := { createAudioElement s1 filePath with volume := 0 }
        let s2 := writeInactive s1 act1 { inact with audioH := some nextAudio }
        (s2, !readyOk)
      else (s1, false)
    let s2 := afterLoad.1
    if afterLoad.2 then
      ({ s2 with crossfadeInProgress := false, crossfadePhase := .none }, true)
    else
      let inact2 := readInactive s2 act1
      match inact2.audioH with
      | none =>
          ({ s2 with crossfadeInProgress := false, crossfadePhase := .none }, true)
      | some el =>
          if playOk then
            (writeInactive s2 act1
              { inact2 with audioH := some { el with paused := false }, isPlaying := true }, false)
          else
            ({ s2 with crossfadeInProgress := false, crossfadePhase := .none }, true)

/-- Tail of `scheduleGaplessTransition` after the preload decision (factored
out for proof modularity; `s1` is the state after the optional preload and
`act1` the discriminator captured at entry): bring the inactive voice to
the configured volume, start it, pause the outgoing voice, flip the active
flags. -/
def gaplessHandoff (s1 : CCState) (act1 : Bool) (playOk : Bool) : CCState × Bool :=
  let inact := readInactive s1 act1
  match inact.audioH with
  | none => (s1, true)
  | some el =>
      let el1 := { el with volume := if s1.isMuted then 0 else s1.volume }
      if !playOk then
        (writeInactive s1 act1 { inact with audioH := some el1 }, true)
      else
        let s2 := writeInactive s1 act1
          { inact with audioH := some { el1 with paused := false }, isPlaying := true }
        let act := readActive s2 act1
        let pausedAct := match act.audioH with
          | some ael => { act with audioH := some { ael with paused := true }, isPlaying := false }
          | none => act
        let s3 := writeActive s2 act1 pausedAct
        let s4 := writeInactive s3 act1 { readInactive s3 act1 with isActive := true }
        let s5 := writeActive s4 act1 { readActive s4 act1 with isActive := false }
        (s5, false)

/-- Embedding of `scheduleGaplessTransition(nextTrack)`: ensure the inactive
voice is preloaded, then hand off (`gaplessHandoff`). Returns the post-call
state and `true` when the promise rejected. -/
def scheduleGaplessTransition (s : CCState) (filePath : String)
    (enh : Except Unit EnhInfo) (playOk : Bool) : CCState × Bool :=
  if s.isDestroyed then (s, true)
  else
    let act1 := s.voice1.isActive
    let inact0 := readInactive s act1
    let preloadNeeded := match inact0.audioH with
      | some el => decide (el.src ≠ filePath)
      | none => true
    let s1 := if preloadNeeded then preloadNextTrack s filePath enh else s
    gaplessHandoff s1 act1 playOk

/-- Embedding of `abortCrossfade`: a no-op when no crossfade is in progress;
otherwise clear the session state, tear down the inactive voice and restore
the configured volume on the active voice. -/
def abortCrossfade (s : CCState) : CCState :=
  if !s.crossfadeInProgress then s
  else
    let s1 := { s with
      crossfadeInProgress := false
      crossfadePhase := .none
      crossfadeStartTime := none }
    let act1 := s1.voice1.isActive
    let inact := readInactive s1 act1
    let s2 := writeInactive s1 act1 { inact with audioH := none, isPlaying := false }
    let act := readActive s2 act1
    match act.audioH with
    | some el =>
        writeActive s2 act1
          { act with audioH := some { el with volume := if s2.isMuted then 0 else s2.volume } }
    | none => s2

/-- Embedding of `seek(time)`: clamp the requested time into
`[0, duration or 0]` on the active element; a no-op when destroyed or when
no element is bound. -/
def seek (s : CCState) (time : ℚ) : CCState :=
  if s.isDestroyed then s
  else
    let act1 := s.voice1.isActive
    let act := readActive s act1
    match act.audioH with
    | none => s
    | some el =>
        writeActive s act1
          { act with audioH := some { el with currentTime := max 0 (min time (el.duration.getD 0)) } }

/-- Embedding of `destroy`: set the destroyed flag, then `stop` (callback
detachment carries no voice state). -/
def destroy (s : CCState) : CCState :=
  stop { s with isDestroyed := true }

/-! ## Web Audio controller (`AudiophileCrossfadeController`) -/

/-- One playback slot of the Web Audio controller: media element, gain node
value, and active flag (analyser nodes carry no transition state). -/
structure AVoice where
  element : Option AudioElt
  gain : ℚ
  isActive : Bool
deriving DecidableEq

/-- Transition-relevant state of `AudiophileCrossfadeController`. -/
structure APState where
  voice1 : AVoice
  voice2 : AVoice
  crossfadeInProgress : Bool
  crossfadeStartTime : Option ℚ
  crossfadeDuration : ℚ
  destroyed : Bool
deriving DecidableEq

/-- `getActiveVoice` of the Web Audio controller. -/
def aReadActive (s : APState) (act1 : Bool) : AVoice :=
  if act1 then s.voice1 else s.voice2

/-- `getInactiveVoice` of the Web Audio controller. -/
def aReadInactive (s : APState) (act1 : Bool) : AVoice :=
  if act1 then s.voice2 else s.voice1

/-- Write back the active slot. -/
def aWriteActive (s : APState) (act1 : Bool) (v : AVoice) : APState :=
  if act1 then { s with voice1 := v } else { s with voice2 := v }

/-- Write back the inactive slot. -/
def aWriteInactive (s : APState) (act1 : Bool) (v : AVoice) : APState :=
  if act1 then { s with voice2 := v } else { s with voice1 := v }

/-- `getActiveVoice` with the discriminator evaluated now. -/
def aGetActiveVoice (s : APState) : AVoice :=
  aReadActive s s.voice1.isActive

/-- Embedding of `AudiophileCrossfadeController.preloadNextTrack`: release
any bound element, then await the load (`loadRes`); on success bind the new
element at gain 0, on rejection the cleanup stays and the error propagates.
Returns the post-call state and `true` on rejection. -/
def aPreloadNextTrack (s : APState) (loadRes : Except Unit AudioElt) : APState × Bool :=
  let act1 := s.voice1.isActive
  let inact := aReadInactive s act1
  let cleaned := { inact with element := (none : Option AudioElt) }
  match loadRes with
  | .error _ => (aWriteInactive s act1 cleaned, true)
  | .ok el => (aWriteInactive s act1 { cleaned with element := some el, gain := 0 }, false)

/-- Embedding of `AudiophileCrossfadeController.scheduleCrossfade`: reject
when a crossfade is already in progress (before any mutation); otherwise
preload if needed, set the in-progress flag and start time, and start the
incoming element (`playOk` models its `play()` promise). Returns the
post-call state and `true` on rejection. -/
def aScheduleCrossfade (s : APState) (now : ℚ) (loadRes : Except Unit AudioElt)
    (playOk : Bool) : APState × Bool :=
  if s.crossfadeInProgress then (s, true)
  else
    let act1 := s.voice1.isActive
    let inact0 := aReadInactive s act1
    let preloaded : APState × Bool :=
      match inact0.element with
      | none => aPreloadNextTrack s loadRes
      | some _ => (s, false)
    if preloaded.2 then (preloaded.1, true)
    else
      let s1 := preloaded.1
      let inact := aReadInactive s1 act1
      match inact.element with
      | none => (s1, true)
      | some el =>
          let s2 := { s1 with crossfadeInProgress := true, crossfadeStartTime := some now }
          if playOk then
            (aWriteInactive s2 act1 { inact with element := some { el with paused := false } }, false)
          else (s2, true)

/-- Embedding of `AudiophileCrossfadeController.seek`: clamp the requested
time into `[0, duration or 0]` on the active element (no destroyed guard in
this controller). -/
def aSeek (s : APState) (time : ℚ) : APState :=
  let act1 := s.voice1.isActive
  let act := aReadActive s act1
  match act.element with
  | none => s
  | some el =>
      aWriteActive s act1
        { act with element := some { el with currentTime := max 0 (min time (el.duration.getD 0)) } }

/-! ## Reachable engine states -/

/-- Engine operations of the claim: `loadTrack`, `preloadNextTrack`,
`scheduleCrossfade`, `scheduleGaplessTransition`, crossfade completion,
`abortCrossfade`, `stop`, `destroy`. Parameters carry the external
nondeterminism (track paths, option values, analysis and playback
outcomes, clock readings). -/
inductive CCEvent
  | load (filePath : String) (optDuration optVolume : ℚ) (enh : Except Unit EnhInfo)
  | preload (filePath : String) (enh : Except Unit EnhInfo)
  | crossfade (filePath : String) (now : ℚ) (readyOk playOk : Bool)
  | gapless (filePath : String) (enh : Except Unit EnhInfo) (playOk : Bool)
  | complete
  | abort
  | stopEvent
  | destroyEvent

/-- One engine step (rejected promises leave their partial state). -/
def ccStep (s : CCState) : CCEvent → CCState
  | .load f d v e => loadTrack s f d v e
  | .preload f e => preloadNextTrack s f e
  | .crossfade f n r p => (scheduleCrossfade s f n r p).1
  | .gapless f e p => (scheduleGaplessTransition s f e p).1
  | .complete => completeCrossfade s
  | .abort => abortCrossfade s
  | .stopEvent => stop s
  | .destroyEvent => destroy s

/-- State after running an event sequence from the constructed engine. -/
def ccRun (events : List CCEvent) : CCState :=
  events.foldl ccStep initState

/-- Exactly one of the two voices carries the active flag. -/
def exactlyOneActive (s : CCState) : Prop :=
  s.voice1.isActive = !s.voice2.isActive

/-! ## Loudness analysis (`LUFSAnalyzer`, renderer) -/

/-- Generic second-order IIR filter loop shared by `applyHighPassFilter` and
`applyHighShelfFilter`: direct-form biquad with state `(x1, x2, y1, y2)`
initialised to zero. -/
noncomputable def applyBiquad (b0 b1 b2 a0 a1 a2 : ℝ) :
    List ℝ → ℝ → ℝ → ℝ → ℝ → List ℝ
  | [], _, _, _, _ => []
  | x0 :: rest, x1, x2, y1, y2 =>
      let y0 := (b0 * x0 + b1 * x1 + b2 * x2 - a1 * y1 - a2 * y2) / a0
      y0 :: applyBiquad b0 b1 b2 a0 a1 a2 rest x0 x1 y0 y1

/-- Embedding of `LUFSAnalyzer.applyHighPassFilter` (Butterworth high-pass
biquad coefficients). -/
noncomputable def applyHighPassFilter (samples : List ℝ) (frequency Q sampleRate : ℝ) :
    List ℝ :=
  let omega := 2 * Real.pi * frequency / sampleRate
  let sinw := Real.sin omega
  let cosw := Real.cos omega
  let alpha := sinw / (2 * Q)
  applyBiquad ((1 + cosw) / 2) (-(1 + cosw)) ((1 + cosw) / 2)
    (1 + alpha) (-2 * cosw) (1 - alpha) samples 0 0 0 0

/-- Embedding of `LUFSAnalyzer.applyHighShelfFilter` (high-shelf biquad with
`A = 10 ^ (gainDB / 40)` and shelf slope `beta = sqrt A`). -/
noncomputable def applyHighShelfFilter (samples : List ℝ) (frequency gainDB sampleRate : ℝ) :
    List ℝ :=
  let A := Real.rpow 10 (gainDB / 40)
  let omega := 2 * Real.pi * frequency / sampleRate
  let sinw := Real.sin omega
  let cosw := Real.cos omega
  let beta := Real.sqrt A / 1
  applyBiquad
    (A * ((A + 1) + (A - 1) * cosw + beta * sinw))
    (-2 * A * ((A - 1) + (A + 1) * cosw))
    (A * ((A + 1) + (A - 1) * cosw - beta * sinw))
    ((A + 1) - (A - 1) * cosw + beta * sinw)
    (2 * ((A - 1) - (A + 1) * cosw))
    ((A + 1) - (A - 1) * cosw - beta * sinw)
    samples 0 0 0 0

/-- Embedding of `LUFSAnalyzer.applyFilters`: high-pass stage (38 Hz,
`Q = 0.5003270373238773`) then high-shelf stage (1500 Hz,
`+3.999843853973347 dB`), the K-weighting cascade. -/
noncomputable def applyFilters (samples : List ℝ) (sampleRate : ℝ) : List ℝ :=
  applyHighShelfFilter (applyHighPassFilter samples 38 0.5003270373238773 sampleRate)
    1500 3.999843853973347 sampleRate

/-- Decoded multi-channel PCM buffer consumed by the loudness analyzer. -/
structure RBuffer where
  channels : List (List ℝ)
  sampleRate : ℝ

/-- Embedding of `LUFSAnalyzer.applyKWeighting`: filter every channel. -/
noncomputable def applyKWeighting (buf : RBuffer) : List (List ℝ) :=
  buf.channels.map (fun ch => applyFilters ch buf.sampleRate)

/-- Sum of squared samples. -/
noncomputable def sumSquares (xs : List ℝ) : ℝ :=
  (xs.map (fun x => x * x)).sum

/-- ITU channel weights of the multi-channel branch (`L, R, C, Ls, Rs`). -/
noncomputable def channelWeights : List ℝ := [1, 1, 1, 1.41, 1.41]

open Classical in
/-- Embedding of `LUFSAnalyzer.calculateMeanSquare`: mono and stereo
branches accumulate plain squared samples, the multi-channel branch weights
surround channels by 1.41, and the final result is `sum / count` guarded by
`count > 0`. Stereo channels are paired index-wise (decoded channels have
equal length). -/
noncomputable def calculateMeanSquare (channels : List (List ℝ)) : ℝ :=
  let sc : ℝ × ℕ :=
    match channels with
    | [c] => (sumSquares c, c.length)
    | [l, r] =>
        (((l.zip r).map (fun p => p.1 * p.1 + p.2 * p.2)).sum, 2 * (l.zip r).length)
    | _ =>
        let n := (channels.headD []).length
        let k := min channels.length channelWeights.length
        (((List.range n).map (fun i =>
            ((List.range k).map (fun ch =>
              let weight := channelWeights.getD ch 1
              let sample := (channels.getD ch []).getD i 0
              weight * sample * sample)).sum)).sum,
         n * k)
  if sc.2 > 0 then sc.1 / (sc.2 : ℝ) else 0

open Classical in
/-- Embedding of `LUFSAnalyzer.linearToLUFS`: `-70` floor on non-positive
(or non-finite) energy, otherwise `-0.691 + 10·log10(linear)`. -/
noncomputable def linearToLUFS (linear : ℝ) : ℝ :=
  if linear ≤ 0 then -70
  else -0.691 + 10 * Real.logb 10 linear

open Classical in
/-- Embedding of `LUFSAnalyzer.calculateTruePeak`: `20·log10` of the maximum
absolute sample over all channels, `-100` when the peak is zero. -/
noncomputable def calculateTruePeak (channels : List (List ℝ)) : ℝ :=
  let maxPeak := channels.foldl (fun acc ch => ch.foldl (fun m v => max m |v|) acc) 0
  if maxPeak > 0 then 20 * Real.logb 10 maxPeak else -100

/-- The `LoudnessMetrics` record (renderer `LUFSAnalyzer` and main-process
service share this interface). -/
structure LoudnessMetrics where
  integratedLUFS : ℝ
  shortTermLUFS : ℝ
  momentaryLUFS : ℝ
  loudnessRange : ℝ
  truePeak : ℝ
  replayGainDB : ℝ

open Classical in
/-- Embedding of `LUFSAnalyzer.analyzeLoudness`: K-weight, integrate over
the whole signal, over the trailing 3 s and trailing 400 ms windows,
simplified loudness range, true peak, and the un-normalised ReplayGain
suggestion `target(-18) - integrated`. -/
noncomputable def analyzeLoudness (buf : RBuffer) : LoudnessMetrics :=
  let kWeightedChannels := applyKWeighting buf
  let integratedLUFS := linearToLUFS (calculateMeanSquare kWeightedChannels)
  let len : ℕ := (buf.channels.headD []).length
  let shortTermWindow : ℝ := min (3 * buf.sampleRate) (len : ℝ)
  let shortTermChannels := kWeightedChannels.map (fun ch =>
    ch.drop (Int.toNat ⌊max 0 ((ch.length : ℝ) - shortTermWindow)⌋))
  let shortTermLUFS := linearToLUFS (calculateMeanSquare shortTermChannels)
  let momentaryWindow : ℝ := min (0.4 * buf.sampleRate) (len : ℝ)
  let momentaryChannels := kWeightedChannels.map (fun ch =>
    ch.drop (Int.toNat ⌊max 0 ((ch.length : ℝ) - momentaryWindow)⌋))
  let momentaryLUFS := linearToLUFS (calculateMeanSquare momentaryChannels)
  let loudnessRange := |shortTermLUFS - momentaryLUFS| * 2
  let truePeak := calculateTruePeak kWeightedChannels
  let targetLUFS : ℝ := -18
  { integratedLUFS := integratedLUFS
    shortTermLUFS := shortTermLUFS
    momentaryLUFS := momentaryLUFS
    loudnessRange := loudnessRange
    truePeak := truePeak
    replayGainDB := targetLUFS - integratedLUFS }

/-- All-zero mono buffer at 48 kHz. -/
noncomputable def zeroRBuffer (n : ℕ) : RBuffer :=
  { channels := [List.replicate n 0], sampleRate := 48000 }

/-! ## Main-process analysis service (`audio-analysis-service`) -/

/-- The `BeatMetrics` record of the analysis service. -/
structure BeatMetrics where
  bpm : ℚ
  confidence : ℚ
  beatPositions : List ℚ
  downbeats : List ℚ
  timeSignature : String
  firstDownbeat : ℚ
  phaseShift : ℚ
deriving DecidableEq

/-- `getDefaultLoudness` of the service. -/
noncomputable def svcDefaultLoudness : LoudnessMetrics :=
  { integratedLUFS := -23
    shortTermLUFS := -23
    momentaryLUFS := -23
    loudnessRange := 7
    truePeak := -1
    replayGainDB := 0 }

/-- `getDefaultSilence` of the service. -/
def svcDefaultSilence : SilenceMetrics :=
  { startSilence := 0
    endSilence := 0
    startFadeIn := 0
    endFadeOut := 0
    hasGaplessMarkers := false
    encoderDelay := 0
    encoderPadding := 0 }

/-- `getDefaultBeats` of the service. -/
def svcDefaultBeats : BeatMetrics :=
  { bpm := 120
    confidence := 0
    beatPositions := []
    downbeats := []
    timeSignature := "4/4"
    firstDownbeat := 0
    phaseShift := 0 }

/-- Result record of the `audio-decoder` `analyzeLoudness`. -/
structure DecoderLoudness where
  rms : ℝ
  peak : ℝ
  estimatedLUFS : ℝ

open Classical in
/-- Embedding of `analyzeLoudness` from `audio-decoder` (simplified, not
ITU-compliant): an empty buffer returns `{rms 0, peak 0, estimatedLUFS -70}`;
otherwise accumulate the squared-sample sum and the absolute peak, take
`rms = sqrt(sum / length)`, estimate `-0.691 + 10·log10(rms)` when
`rms > 0` (else `-70`), and clamp the estimate into `[-70, 0]`. -/
noncomputable def decoderAnalyzeLoudness (samples : List ℝ) : DecoderLoudness :=
  if samples.length = 0 then { rms := 0, peak := 0, estimatedLUFS := -70 }
  else
    let sum := (samples.map (fun s => s * s)).sum
    let peak := samples.foldl (fun m v => max m |v|) 0
    let rms := Real.sqrt (sum / (samples.length : ℝ))
    let estimatedLUFS := if rms > 0 then -0.691 + 10 * Real.logb 10 rms else -70
    { rms := rms
      peak := peak
      estimatedLUFS := max (-70) (min 0 estimatedLUFS) }

open Classical in
/-- Embedding of the service `analyzeLoudness`: defaults on an empty buffer,
otherwise the decoder estimate with approximate short-term/momentary
offsets, dBFS peak, and the ReplayGain suggestion
`-18 - estimatedLUFS` clamped into `[-20, 20]`. -/
noncomputable def svcAnalyzeLoudness (samples : List ℝ) : LoudnessMetrics :=
  if samples.length = 0 then svcDefaultLoudness
  else
    let analysis := decoderAnalyzeLoudness samples
    let targetLUFS : ℝ := -18
    let replayGainDB := targetLUFS - analysis.estimatedLUFS
    let truePeak := if analysis.peak > 0 then 20 * Real.logb 10 analysis.peak else -100
    { integratedLUFS := analysis.estimatedLUFS
      shortTermLUFS := analysis.estimatedLUFS + 0.5
      momentaryLUFS := analysis.estimatedLUFS + 1.2
      loudnessRange := 7
      truePeak := truePeak
      replayGainDB := max (-20) (min 20 replayGainDB) }

open Classical in
/-- Embedding of the service `analyzeSilence`: defaults on an empty buffer,
otherwise the `detectSilence` output of `audio-decoder` (passed here as the
argument `dsOut`), simplified fades capped at 0.5 s, the abrupt-ending
gapless heuristic over the last 100 samples, and fixed LAME encoder
delay/padding constants. -/
noncomputable def svcAnalyzeSilence (samples : List ℝ) (dsOut : ℚ × ℚ) : SilenceMetrics :=
  if samples.length = 0 then svcDefaultSilence
  else
    let startSilence := dsOut.1
    let endSilence := dsOut.2
    let fadeIn := min (startSilence * 2) (1 / 2)
    let fadeOut := min (endSilence * 2) (1 / 2)
    let lastSamples := samples.drop (samples.length - 100)
    let avgAmplitude := (lastSamples.map (fun v => |v|)).sum / (lastSamples.length : ℝ)
    { startSilence := startSilence
      endSilence := endSilence
      startFadeIn := fadeIn
      endFadeOut := fadeOut
      hasGaplessMarkers := if avgAmplitude > 1 / 100 then true else false
      encoderDelay := 576
      encoderPadding := 1152 }

/-- Embedding of the service `analyzeBeats`: defaults on an empty buffer,
otherwise a uniform beat grid from the `detectBeats` output of
`audio-decoder` (passed here as `dbOut = (estimatedBPM, confidence)`),
every fourth grid point a downbeat, truncated to 1000 beats / 250
downbeats. -/
def svcAnalyzeBeats (samples : List ℝ) (dbOut : ℚ × ℚ) : BeatMetrics :=
  if samples.length = 0 then svcDefaultBeats
  else
    let sampleRate : ℚ := 44100
    let duration : ℚ := (samples.length : ℚ) / sampleRate
    let beatInterval : ℚ := 60 / dbOut.1
    let numBeats : ℕ := if beatInterval > 0 then (⌈duration / beatInterval⌉).toNat else 0
    let beatPositions := (List.range numBeats).map (fun i => (i : ℚ) * beatInterval)
    let downbeats := (List.range numBeats).filterMap (fun i =>
      if i % 4 = 0 then some ((i : ℚ) * beatInterval) else none)
    { bpm := dbOut.1
      confidence := dbOut.2
      beatPositions := beatPositions.take 1000
      downbeats := downbeats.take 250
      timeSignature := "4/4"
      firstDownbeat := (downbeats.headD 0)
      phaseShift := 0 }

/-- File stats consumed by the cache layer (`size`, `mtimeMs`). -/
structure FileStats where
  size : ℚ
  mtime : ℚ
deriving DecidableEq

/-- The `AudioAnalysisResult` aggregate of the service. -/
structure AudioAnalysisResult where
  lufs : LoudnessMetrics
  silence : SilenceMetrics
  beats : BeatMetrics
  timestamp : ℚ
  fileHash : String

/-- External outcomes of one `performAnalysis` run: the two cache lookups,
`fs.statSync`, `getFileHash`, the `decodeAudioFile` collaborator, the
silence/beat collaborator outputs, and the clock. -/
structure AnalysisEnv where
  cachedByPath : Option AudioAnalysisResult
  statResult : Except Unit FileStats
  hashResult : Except Unit String
  cachedByHash : Option AudioAnalysisResult
  decodeResult : Except Unit (List ℝ)
  dsOut : ℚ × ℚ
  dbOut : ℚ × ℚ
  now : ℚ

/-- Embedding of the service `loadAudioFile`: decode failures are swallowed
and yield an empty sample buffer (`new Float32Array(0)`). -/
def loadAudioFile (env : AnalysisEnv) : List ℝ :=
  match env.decodeResult with
  | .ok samples => samples
  | .error _ => []

/-- The default `AudioAnalysisResult` produced by the `catch` blocks:
every analyzer default plus an empty content hash. -/
noncomputable def svcDefaultResult (now : ℚ) : AudioAnalysisResult :=
  { lufs := svcDefaultLoudness
    silence := svcDefaultSilence
    beats := svcDefaultBeats
    timestamp := now
    fileHash := "" }

/-- Embedding of the service `performAnalysis`: path-keyed cache lookup,
stat + bounded-prefix hash (either may throw into the `catch`, yielding
defaults with an empty hash), hash-keyed cache lookup, then decode and the
three analyzers. -/
noncomputable def performAnalysis (env : AnalysisEnv) : AudioAnalysisResult :=
  match env.cachedByPath with
  | some cached => cached
  | none =>
      match env.statResult with
      | .error _ => svcDefaultResult env.now
      | .ok _stats =>
          match env.hashResult with
          | .error _ => svcDefaultResult env.now
          | .ok fileHash =>
              match env.cachedByHash with
              | some cached => cached
              | none =>
                  let samples := loadAudioFile env
                  { lufs := svcAnalyzeLoudness samples
                    silence := svcAnalyzeSilence samples env.dsOut
                    beats := svcAnalyzeBeats samples env.dbOut
                    timestamp := env.now
                    fileHash := fileHash }

/-- Embedding of the service `analyzeAudio` result value: `performAnalysis`
already absorbs every failure, so the surrounding `.catch` fallback (the
same defaults-plus-empty-hash record) is unreachable and the call always
resolves with `performAnalysis`. -/
noncomputable def analyzeAudio (env : AnalysisEnv) : AudioAnalysisResult :=
  performAnalysis env

/-- Per-locator view of the `analysisQueue` map: the pending promise for
this locator, if any, and a fresh-promise counter standing for promise
identity. -/
structure AnalysisQueue where
  pending : Option ℕ
  nextId : ℕ
deriving DecidableEq

/-- One `analyzeAudio` arrival for a fixed locator, before the delayed
queue cleanup runs: an existing pending promise is returned as-is,
otherwise a new computation is created and registered. Returns the new
queue state, the promise the caller awaits, and whether a new underlying
computation was created. -/
def analyzeArrival (q : AnalysisQueue) : AnalysisQueue × ℕ × Bool :=
  match q.pending with
  | some pid => (q, pid, false)
  | none => ({ pending := some q.nextId, nextId := q.nextId + 1 }, q.nextId, true)

/-! ## Concrete sample states used by the witnesses -/

/-- A `CrossfadeController` state with a live crossfade session. -/
def ccSessionState : CCState :=
  { initState with
      crossfadeInProgress := true
      crossfadePhase := .active
      crossfadeStartTime := some 1000 }

/-- An `AudiophileCrossfadeController` state with a live crossfade session. -/
def apSessionState : APState :=
  { voice1 :=
      { element := some { src := "a", volume := 1, currentTime := 30, duration := some 200,
                          paused := false }
        gain := 1
        isActive := true }
    voice2 := { element := none, gain := 0, isActive := false }
    crossfadeInProgress := true
    crossfadeStartTime := some 1000
    crossfadeDuration := 5
    destroyed := false }

/-- A voice is audible when it holds an element with positive volume
(gain-structure audibility: a signal path with nonzero gain). -/
def audibleVoice (v : Voice) : Bool :=
  match v.audioH with
  | some el => decide (0 < el.volume)
  | none => false

/-- A mid-crossfade state: voice 1 active and playing, voice 2 ramping in. -/
def midCrossfadeState : CCState :=
  { voice1 :=
      { audioH := some { src := "a", volume := 1 / 2, currentTime := 195, duration := some 200,
                         paused := false }
        isActive := true
        isPlaying := true
        enhInfo := none }
    voice2 :=
      { audioH := some { src := "b", volume := 1 / 2, currentTime := 0, duration := some 180,
                         paused := false }
        isActive := false
        isPlaying := true
        enhInfo := none }
    crossfadeDuration := 5
    volume := 1
    isMuted := false
    isDestroyed := false
    enableAudioEnhancement := false
    crossfadeInProgress := true
    crossfadeStartTime := some 1000
    crossfadePhase := .active }

/-- A live engine state with a bound, playing active element. -/
def seekSampleCC : CCState :=
  { initState with
      voice1 :=
        { audioH := some { src := "a", volume := 1, currentTime := 30, duration := some 200,
                           paused := false }
          isActive := true
          isPlaying := true
          enhInfo := none } }

/-- The Web Audio controller state of the seek witness. -/
def seekSampleAP : APState :=
  { apSessionState with crossfadeInProgress := false }

/-- Environment of one `analyzeAudio` call in which both cache lookups miss,
stat and hashing succeed (hash `"abc123"`), and decoding fails. -/
def decodeFailEnv : AnalysisEnv :=
  { cachedByPath := none
    statResult := .ok ⟨100, 0⟩
    hashResult := .ok "abc123"
    cachedByHash := none
    decodeResult := .error ()
    dsOut := (0, 0)
    dbOut := (120, 0)
    now := 7 }

/-- Environment in which `fs.statSync` throws. -/
def statFailEnv : AnalysisEnv :=
  { decodeFailEnv with statResult := .error () }

/-- A two-sample 48 kHz buffer: one leading near-zero sample, a loud last
sample (abrupt ending, so the gapless heuristic fires). -/
def gaplessSampleBuf : ChannelBuffer := { samples := [0, 1], sampleRate := 48000 }

/-- Detector-derived metrics of `gaplessSampleBuf`. -/
def gaplessSampleMetrics : SilenceMetrics :=
  { startSilence := 0
    endSilence := 0
    startFadeIn := 0
    endFadeOut := 0
    hasGaplessMarkers := checkGaplessMarkers gaplessSampleBuf
    encoderDelay := (detectEncoderArtifacts gaplessSampleBuf).1
    encoderPadding := (detectEncoderArtifacts gaplessSampleBuf).2 }

/-- Regular-track metrics with a 0.7 s fade-in (start trim suppressed). -/
def fadeSampleMetrics : SilenceMetrics :=
  { startSilence := 3
    endSilence := 1
    startFadeIn := 7 / 10
    endFadeOut := 1 / 5
    hasGaplessMarkers := false
    encoderDelay := 0
    encoderPadding := 0 }


lemma stop_voiceFlags (s : CCState) :
    (stop s).voice1.isActive = s.voice1.isActive ∧
    (stop s).voice2.isActive = s.voice2.isActive := ⟨rfl, rfl⟩

lemma loadTrack_active (s : CCState) (f : String) (d v : ℚ) (e : Except Unit EnhInfo)
    (h : exactlyOneActive s) : exactlyOneActive (loadTrack s f d v e) := by
  unfold loadTrack
  split
  · exact h
  · exact rfl

lemma preloadNextTrack_voiceFlags (s : CCState) (f : String) (e : Except Unit EnhInfo) :
    (preloadNextTrack s f e).voice1.isActive = s.voice1.isActive ∧
    (preloadNextTrack s f e).voice2.isActive = s.voice2.isActive := by
  unfold preloadNextTrack writeInactive readInactive
  cases hact : s.voice1.isActive <;> simp only [hact] <;>
    (repeat' split) <;> exact ⟨hact, rfl⟩

set_option maxHeartbeats 1000000 in
lemma scheduleCrossfade_voiceFlags (s : CCState) (f : String) (n : ℚ) (r p : Bool) :
    (scheduleCrossfade s f n r p).1.voice1.isActive = s.voice1.isActive ∧
    (scheduleCrossfade s f n r p).1.voice2.isActive = s.voice2.isActive := by
  unfold scheduleCrossfade writeInactive readInactive
  cases hact : s.voice1.isActive <;> simp only [hact] <;>
    (repeat' split) <;> exact ⟨hact, rfl⟩

lemma abortCrossfade_voiceFlags (s : CCState) :
    (abortCrossfade s).voice1.isActive = s.voice1.isActive ∧
    (abortCrossfade s).voice2.isActive = s.voice2.isActive := by
  unfold abortCrossfade writeActive writeInactive readActive readInactive
  cases hact : s.voice1.isActive <;> simp only [hact] <;>
    (repeat' split) <;> exact ⟨hact, rfl⟩

lemma seek_voiceFlags (s : CCState) (t : ℚ) :
    (seek s t).voice1.isActive = s.voice1.isActive ∧
    (seek s t).voice2.isActive = s.voice2.isActive := by
  unfold seek writeActive readActive
  cases hact : s.voice1.isActive <;> simp only [hact] <;>
    (repeat' split) <;> exact ⟨hact, rfl⟩

lemma completeCrossfade_flip (s : CCState) (_h : exactlyOneActive s) :
    exactlyOneActive (completeCrossfade s) := by
  unfold exactlyOneActive
  unfold completeCrossfade writeActive writeInactive readActive readInactive
  cases hact : s.voice1.isActive <;> simp only [hact] <;>
    (repeat' split) <;> rfl

lemma gaplessHandoff_active (s1 : CCState) (act1 p : Bool)
    (h : exactlyOneActive s1) : exactlyOneActive (gaplessHandoff s1 act1 p).1 := by
  unfold exactlyOneActive at h ⊢
  unfold gaplessHandoff writeActive writeInactive readActive readInactive
  cases act1 <;> simp only [Bool.false_eq_true, if_false, if_true] <;>
    (repeat' split) <;> first | rfl | exact h

lemma scheduleGaplessTransition_active (s : CCState) (f : String)
    (e : Except Unit EnhInfo) (p : Bool) (h : exactlyOneActive s) :
    exactlyOneActive (scheduleGaplessTransition s f e p).1 := by
  have hpre := preloadNextTrack_voiceFlags s f e
  unfold scheduleGaplessTransition
  split
  · exact h
  · apply gaplessHandoff_active
    split
    · unfold exactlyOneActive
      rw [hpre.1, hpre.2]
      exact h
    · exact h

lemma ccStep_preserves (s : CCState) (e : CCEvent) (h : exactlyOneActive s) :
    exactlyOneActive (ccStep s e) := by
  cases e with
  | load f d v enh =>
      exact loadTrack_active s f d v enh h
  | preload f enh =>
      have hp := preloadNextTrack_voiceFlags s f enh
      show exactlyOneActive (preloadNextTrack s f enh)
      unfold exactlyOneActive at h ⊢
      rw [hp.1, hp.2]
      exact h
  | crossfade f n r p =>
      have hp := scheduleCrossfade_voiceFlags s f n r p
      show exactlyOneActive (scheduleCrossfade s f n r p).1
      unfold exactlyOneActive at h ⊢
      rw [hp.1, hp.2]
      exact h
  | gapless f enh p => exact scheduleGaplessTransition_active s f enh p h
  | complete => exact completeCrossfade_flip s h
  | abort =>
      have hp := abortCrossfade_voiceFlags s
      show exactlyOneActive (abortCrossfade s)
      unfold exactlyOneActive at h ⊢
      rw [hp.1, hp.2]
      exact h
  | stopEvent => exact h
  | destroyEvent => exact h

/-! ## Claim theorems -/

/-- C1: exactly one of the engine's two voices has its active flag set in
every reachable engine state: after construction and after any sequence of
`loadTrack`, `preloadNextTrack`, `scheduleCrossfade`,
`scheduleGaplessTransition`, crossfade completion, `abortCrossfade`,
`stop` and `destroy`, it is never the case that both voices are active or
that neither is. -/
theorem exactly_one_voice_active_invariant :
    ∀ events : List CCEvent, exactlyOneActive (ccRun events) := by
  intro events
  have run : ∀ (s : CCState), exactlyOneActive s →
      exactlyOneActive (events.foldl ccStep s) := by
    induction events with
    | nil => intro s h; exact h
    | cons e tail ih => intro s h; exact ih _ (ccStep_preserves s e h)
  exact run initState rfl

/-- C8: whenever onset detection yields fewer than 10 onsets, tempo
estimation returns exactly `bpm = 120` and `confidence = 0`. -/
theorem estimateTempo_default_below_ten_onsets :
    ∀ onsets : List ℚ, onsets.length < 10 → estimateTempo onsets = (120, 0) := by
  intro onsets h
  unfold estimateTempo
  rw [if_pos h]

/-- Witness for C8 at the empty onset list. -/
theorem estimateTempo_default_below_ten_onsets_witness :
    ([] : List ℚ).length < 10 ∧ estimateTempo [] = (120, 0) :=
  ⟨by decide, estimateTempo_default_below_ten_onsets [] (by decide)⟩

/-- C9: a second `analyzeAudio` arrival for the same locator, before the
first resolves and before the grace-period cleanup clears the pending map,
shares exactly one underlying computation with the first (only the first
arrival creates one, both await the same promise) and both resolve to the
same result value. -/
theorem analyze_dedup_shares_one_computation :
    ∀ (q : AnalysisQueue) (resolutionOf : ℕ → AudioAnalysisResult),
      q.pending = none →
      (analyzeArrival q).2.2 = true ∧
      (analyzeArrival (analyzeArrival q).1).2.2 = false ∧
      (analyzeArrival (analyzeArrival q).1).2.1 = (analyzeArrival q).2.1 ∧
      resolutionOf ((analyzeArrival (analyzeArrival q).1).2.1) =
        resolutionOf ((analyzeArrival q).2.1) := by
  intro q resolutionOf h
  unfold analyzeArrival
  rw [h]
  exact ⟨rfl, rfl, rfl, rfl⟩

/-- Witness for C9 at an initially empty queue. -/
theorem analyze_dedup_shares_one_computation_witness :
    (AnalysisQueue.mk none 0).pending = none ∧
    (analyzeArrival ⟨none, 0⟩).2.2 = true ∧
    (analyzeArrival (analyzeArrival ⟨none, 0⟩).1).2.2 = false ∧
    (analyzeArrival (analyzeArrival ⟨none, 0⟩).1).2.1 = (analyzeArrival ⟨none, 0⟩).2.1 :=
  ⟨rfl,
    (analyze_dedup_shares_one_computation ⟨none, 0⟩ (fun _ => svcDefaultResult 0) rfl).1,
    (analyze_dedup_shares_one_computation ⟨none, 0⟩ (fun _ => svcDefaultResult 0) rfl).2.1,
    (analyze_dedup_shares_one_computation ⟨none, 0⟩ (fun _ => svcDefaultResult 0) rfl).2.2.1⟩

/-- C3: while a crossfade session is in progress, `scheduleCrossfade`
rejects synchronously and leaves the whole engine state — session flags,
phase, start time, configured duration, and both voices — unchanged, in
both the `CrossfadeController` and the `AudiophileCrossfadeController`
(whose guard also precedes any mutation). -/
theorem scheduleCrossfade_rejects_during_session :
    (∀ (s : CCState) (f : String) (n : ℚ) (r p : Bool),
        s.crossfadeInProgress = true → scheduleCrossfade s f n r p = (s, true)) ∧
    (∀ (s : APState) (n : ℚ) (loadRes : Except Unit AudioElt) (p : Bool),
        s.crossfadeInProgress = true → aScheduleCrossfade s n loadRes p = (s, true)) := by
  constructor
  · intro s f n r p h
    unfold scheduleCrossfade
    simp [h]
  · intro s n loadRes p h
    unfold aScheduleCrossfade
    rw [if_pos h]

/-- Witness for C3 at concrete in-progress states of both controllers. -/
theorem scheduleCrossfade_rejects_during_session_witness :
    ccSessionState.crossfadeInProgress = true ∧
    apSessionState.crossfadeInProgress = true ∧
    scheduleCrossfade ccSessionState "b" 2000 true true = (ccSessionState, true) ∧
    aScheduleCrossfade apSessionState 2000 (.error ()) true = (apSessionState, true) :=
  ⟨rfl, rfl,
    scheduleCrossfade_rejects_during_session.1 ccSessionState "b" 2000 true true rfl,
    scheduleCrossfade_rejects_during_session.2 apSessionState 2000 (.error ()) true rfl⟩

lemma clamp01_idem (p : ℝ) : max 0 (min 1 (max 0 (min 1 p))) = max 0 (min 1 p) := by
  have h1 : min 1 (max 0 (min 1 p)) = max 0 (min 1 p) :=
    min_eq_right (max_le (by norm_num) (min_le_left 1 p))
  rw [h1, ← max_assoc, max_self]

/-- C2: for every progress input and each of the five curve kinds, the
crossfade gain pair satisfies the boundary laws `fadeOut(0) = 1`,
`fadeIn(0) = 0`, `fadeOut(1) = 0`, `fadeIn(1) = 1`, and out-of-range
progress is first clamped into `[0, 1]` (the gain at any `p` equals the
gain at the clamp of `p`). -/
theorem crossfade_curve_boundary_laws :
    ∀ c : CrossfadeCurve,
      (calculateCrossfadeGain 0 c).fadeOut = 1 ∧ (calculateCrossfadeGain 0 c).fadeIn = 0 ∧
      (calculateCrossfadeGain 1 c).fadeOut = 0 ∧ (calculateCrossfadeGain 1 c).fadeIn = 1 ∧
      ∀ p : ℝ, calculateCrossfadeGain p c = calculateCrossfadeGain (max 0 (min 1 p)) c := by
  have hclamp0 : max 0 (min 1 (0 : ℝ)) = 0 := by norm_num
  have hclamp1 : max 0 (min 1 (1 : ℝ)) = 1 := by norm_num
  have hexp : (1 : ℝ) < Real.exp 2 := by
    have h := Real.add_one_le_exp (2 : ℝ)
    linarith
  have hlogb : Real.logb 10 10 = 1 := Real.logb_self_eq_one (by norm_num)
  have hne : Real.exp 2 - 1 ≠ 0 := ne_of_gt (by linarith)
  intro c
  cases c <;>
    refine ⟨?_, ?_, ?_, ?_, fun p => by
      simp only [calculateCrossfadeGain, clamp01_idem]⟩ <;>
    simp only [calculateCrossfadeGain, hclamp0, hclamp1] <;>
    norm_num [hlogb, Real.logb_one, Real.exp_zero]
  all_goals exact div_self hne
lemma applyBiquad_replicate_zero (b0 b1 b2 a0 a1 a2 : ℝ) :
    ∀ n : ℕ, applyBiquad b0 b1 b2 a0 a1 a2 (List.replicate n 0) 0 0 0 0 = List.replicate n 0 := by
  intro n
  induction n with
  | zero => rfl
  | succ n ih =>
      simp only [List.replicate_succ, applyBiquad, mul_zero, add_zero, sub_zero, zero_div]
      rw [ih]

lemma applyFilters_replicate_zero (sr : ℝ) (n : ℕ) :
    applyFilters (List.replicate n 0) sr = List.replicate n 0 := by
  unfold applyFilters applyHighPassFilter
  rw [applyBiquad_replicate_zero]
  unfold applyHighShelfFilter
  rw [applyBiquad_replicate_zero]

lemma sumSquares_replicate_zero (n : ℕ) : sumSquares (List.replicate n 0) = 0 := by
  simp [sumSquares]

lemma calculateMeanSquare_replicate_zero (n : ℕ) :
    calculateMeanSquare [List.replicate n 0] = 0 := by
  unfold calculateMeanSquare
  simp only [sumSquares_replicate_zero]
  split <;> simp

lemma linearToLUFS_zero : linearToLUFS 0 = -70 := by
  unfold linearToLUFS
  rw [if_pos le_rfl]

lemma analyzeLoudness_all_zero (n : ℕ) :
    (analyzeLoudness (zeroRBuffer n)).integratedLUFS = -70 ∧
    (analyzeLoudness (zeroRBuffer n)).replayGainDB = 52 := by
  have hk : applyKWeighting (zeroRBuffer n) = [List.replicate n 0] := by
    unfold applyKWeighting zeroRBuffer
    simp [applyFilters_replicate_zero]
  constructor <;>
    simp only [analyzeLoudness, hk, calculateMeanSquare_replicate_zero, linearToLUFS_zero] <;>
    norm_num

/-- C6 counterexample: on a concrete all-zero 48 kHz buffer the renderer
`LUFSAnalyzer.analyzeLoudness` returns integrated loudness `-70` but the
suggested gain `replayGainDB = -18 - (-70) = 52`, which is NOT within
`±20 dB`: this function applies no clamp at all. -/
theorem lufs_replay_gain_unclamped_counterexample :
    (analyzeLoudness (zeroRBuffer 4)).integratedLUFS = -70 ∧
    (analyzeLoudness (zeroRBuffer 4)).replayGainDB = 52 ∧
    ¬(-20 ≤ (analyzeLoudness (zeroRBuffer 4)).replayGainDB ∧
      (analyzeLoudness (zeroRBuffer 4)).replayGainDB ≤ 20) := by
  obtain ⟨h1, h2⟩ := analyzeLoudness_all_zero 4
  refine ⟨h1, h2, ?_⟩
  rw [h2]
  norm_num

/-- C6 (amended): every all-zero PCM buffer yields integrated loudness
exactly `-70` in the renderer analyzer, whose suggested gain is the
unclamped `52`; the main-process service analyzer (for a non-empty all-zero
buffer) also reports `-70` and clamps the suggested gain to `20`, and its
`±20 dB` clamp applies to every input. -/
theorem lufs_zero_buffer_amended :
    ∀ n : ℕ,
      (analyzeLoudness (zeroRBuffer n)).integratedLUFS = -70 ∧
      (analyzeLoudness (zeroRBuffer n)).replayGainDB = 52 ∧
      (0 < n →
        (svcAnalyzeLoudness (List.replicate n 0)).integratedLUFS = -70 ∧
        (svcAnalyzeLoudness (List.replicate n 0)).replayGainDB = 20) ∧
      (∀ samples : List ℝ,
        -20 ≤ (svcAnalyzeLoudness samples).replayGainDB ∧
        (svcAnalyzeLoudness samples).replayGainDB ≤ 20) := by
  intro n
  obtain ⟨h1, h2⟩ := analyzeLoudness_all_zero n
  refine ⟨h1, h2, ?_, ?_⟩
  · intro hn
    have hlen : ¬((List.replicate n (0 : ℝ)).length = 0) := by
      simp
      omega
    have hdec : (decoderAnalyzeLoudness (List.replicate n (0 : ℝ))).estimatedLUFS = -70 := by
      have hsum : ((List.replicate n (0 : ℝ)).map (fun s => s * s)).sum = 0 := by
        simp
      simp only [decoderAnalyzeLoudness, hlen, if_false, hsum, zero_div, Real.sqrt_zero,
        gt_iff_lt, lt_self_iff_false]
      norm_num
    constructor <;>
      simp only [svcAnalyzeLoudness, hlen, if_false, hdec] <;>
      norm_num
  · intro samples
    unfold svcAnalyzeLoudness
    split
    · unfold svcDefaultLoudness
      norm_num
    · constructor
      · exact le_max_left _ _
      · exact max_le (by norm_num) (min_le_left _ _)

/-- Witness for the service clauses of the amended C6 theorem at `n = 1`. -/
theorem lufs_zero_buffer_amended_witness :
    0 < 1 ∧
    (svcAnalyzeLoudness (List.replicate 1 (0 : ℝ))).integratedLUFS = -70 ∧
    (svcAnalyzeLoudness (List.replicate 1 (0 : ℝ))).replayGainDB = 20 :=
  ⟨by norm_num,
   ((lufs_zero_buffer_amended 1).2.2.1 (by norm_num)).1,
   ((lufs_zero_buffer_amended 1).2.2.1 (by norm_num)).2⟩

/-- C7 counterexample: when the decode step fails (but the file is readable,
so stat and the content hash succeed), `analyzeAudio` returns the three
analyzer defaults — but the content hash is the computed file hash, not the
empty string the claim requires. -/
theorem analysis_decode_failure_counterexample :
    (analyzeAudio decodeFailEnv).lufs = svcDefaultLoudness ∧
    (analyzeAudio decodeFailEnv).silence = svcDefaultSilence ∧
    (analyzeAudio decodeFailEnv).beats = svcDefaultBeats ∧
    (analyzeAudio decodeFailEnv).fileHash = "abc123" ∧
    ¬((analyzeAudio decodeFailEnv).fileHash = "") := by
  have hh : (analyzeAudio decodeFailEnv).fileHash = "abc123" := rfl
  refine ⟨rfl, rfl, rfl, hh, ?_⟩
  rw [hh]
  decide

/-- C7 (amended): `analyzeAudio` never throws and always returns a fully
populated result. When the stat or hash step fails, the result is every
analyzer default plus the empty hash; when the decode step fails (samples
default to the empty buffer), the three metrics are again each analyzer
default, but the content hash is the computed file hash. -/
theorem analysis_failure_returns_defaults :
    ∀ env : AnalysisEnv, env.cachedByPath = none →
      (env.statResult = .error () →
          analyzeAudio env = svcDefaultResult env.now) ∧
      (∀ st, env.statResult = .ok st → env.hashResult = .error () →
          analyzeAudio env = svcDefaultResult env.now) ∧
      (∀ st h, env.statResult = .ok st → env.hashResult = .ok h →
          env.cachedByHash = none → env.decodeResult = .error () →
          analyzeAudio env =
            { lufs := svcDefaultLoudness
              silence := svcDefaultSilence
              beats := svcDefaultBeats
              timestamp := env.now
              fileHash := h }) := by
  intro env hcp
  refine ⟨?_, ?_, ?_⟩
  · intro hst
    simp only [analyzeAudio, performAnalysis, hcp, hst]
  · intro st hst hh
    simp only [analyzeAudio, performAnalysis, hcp, hst, hh]
  · intro st h hst hh hch hdec
    simp only [analyzeAudio, performAnalysis, hcp, hst, hh, hch, loadAudioFile, hdec]
    rfl

/-- Witness for the amended C7 theorem at the concrete failing
environments. -/
theorem analysis_failure_returns_defaults_witness :
    decodeFailEnv.cachedByPath = none ∧
    statFailEnv.cachedByPath = none ∧
    statFailEnv.statResult = .error () ∧
    analyzeAudio statFailEnv = svcDefaultResult statFailEnv.now ∧
    analyzeAudio decodeFailEnv =
      { lufs := svcDefaultLoudness
        silence := svcDefaultSilence
        beats := svcDefaultBeats
        timestamp := decodeFailEnv.now
        fileHash := "abc123" } :=
  ⟨rfl, rfl, rfl,
   (analysis_failure_returns_defaults statFailEnv rfl).1 rfl,
   (analysis_failure_returns_defaults decodeFailEnv rfl).2.2 ⟨100, 0⟩ "abc123" rfl rfl rfl rfl⟩

lemma abortCrossfade_session_cleared (s : CCState) (h : s.crossfadeInProgress = true) :
    (abortCrossfade s).crossfadeInProgress = false ∧
    (abortCrossfade s).crossfadePhase = CrossfadePhase.none ∧
    (abortCrossfade s).crossfadeStartTime = none := by
  unfold abortCrossfade readActive readInactive writeActive writeInactive
  cases hact : s.voice1.isActive <;> simp only [h, hact, Bool.not_true, Bool.false_eq_true,
    if_false] <;> (repeat' split) <;> exact ⟨rfl, rfl, rfl⟩

lemma abortCrossfade_inactive_torn_down (s : CCState) (h : s.crossfadeInProgress = true) :
    (readInactive (abortCrossfade s) s.voice1.isActive).audioH = none ∧
    (readInactive (abortCrossfade s) s.voice1.isActive).isPlaying = false := by
  unfold abortCrossfade readActive readInactive writeActive writeInactive
  cases hact : s.voice1.isActive <;> simp only [h, hact, Bool.not_true, Bool.false_eq_true,
    if_false] <;> (repeat' split) <;> exact ⟨rfl, rfl⟩

lemma abortCrossfade_active_restored (s : CCState) (h : s.crossfadeInProgress = true)
    (el : AudioElt) (hel : (readActive s s.voice1.isActive).audioH = some el) :
    (readActive (abortCrossfade s) s.voice1.isActive).audioH =
      some { el with volume := if s.isMuted then 0 else s.volume } := by
  unfold readActive at hel
  unfold abortCrossfade readActive readInactive writeActive writeInactive
  cases hact : s.voice1.isActive <;> simp only [hact] at hel <;>
    simp only [h, hact, Bool.not_true, Bool.false_eq_true, if_false] <;>
    (repeat' split) <;> simp_all

/-- C4: `abortCrossfade` is safe at any time. With no crossfade in progress
it changes nothing. Mid-crossfade it clears the in-progress flag, phase and
start time, tears down the inactive voice (no handle, not playing), and
restores the active element volume to the configured volume (0 when muted);
afterwards the two voices are never both audible, and — whenever the active
voice has a handle and the configured effective volume is positive — never
both silent. -/
theorem abortCrossfade_safe_any_time :
    ∀ s : CCState,
      (s.crossfadeInProgress = false → abortCrossfade s = s) ∧
      (s.crossfadeInProgress = true →
        (abortCrossfade s).crossfadeInProgress = false ∧
        (abortCrossfade s).crossfadePhase = CrossfadePhase.none ∧
        (abortCrossfade s).crossfadeStartTime = none ∧
        (readInactive (abortCrossfade s) s.voice1.isActive).audioH = none ∧
        (readInactive (abortCrossfade s) s.voice1.isActive).isPlaying = false ∧
        (∀ el, (readActive s s.voice1.isActive).audioH = some el →
          (readActive (abortCrossfade s) s.voice1.isActive).audioH =
            some { el with volume := if s.isMuted then 0 else s.volume }) ∧
        ¬(audibleVoice (abortCrossfade s).voice1 = true ∧
          audibleVoice (abortCrossfade s).voice2 = true) ∧
        (¬(readActive s s.voice1.isActive).audioH = none → s.isMuted = false → 0 < s.volume →
          ¬(audibleVoice (abortCrossfade s).voice1 = false ∧
            audibleVoice (abortCrossfade s).voice2 = false))) := by
  intro s
  constructor
  · intro h
    unfold abortCrossfade
    simp [h]
  · intro h
    obtain ⟨hc1, hc2, hc3⟩ := abortCrossfade_session_cleared s h
    obtain ⟨hi1, hi2⟩ := abortCrossfade_inactive_torn_down s h
    refine ⟨hc1, hc2, hc3, hi1, hi2, fun el hel => abortCrossfade_active_restored s h el hel,
      ?_, ?_⟩
    · intro ⟨ha1, ha2⟩
      cases hact : s.voice1.isActive
      · have := hi1
        rw [hact] at this
        unfold readInactive at this
        simp only [Bool.false_eq_true, if_false] at this
        unfold audibleVoice at ha1
        rw [this] at ha1
        exact Bool.false_ne_true ha1
      · have := hi1
        rw [hact] at this
        unfold readInactive at this
        simp only [if_true] at this
        unfold audibleVoice at ha2
        rw [this] at ha2
        exact Bool.false_ne_true ha2
    · intro hne hmut hvol ⟨ha1, ha2⟩
      obtain ⟨el, hel⟩ := Option.ne_none_iff_exists'.mp hne
      have hrest := abortCrossfade_active_restored s h el hel
      rw [hmut] at hrest
      simp only [Bool.false_eq_true, if_false] at hrest
      cases hact : s.voice1.isActive
      · have := hrest
        rw [hact] at this
        unfold readActive at this
        simp only [Bool.false_eq_true, if_false] at this
        unfold audibleVoice at ha2
        rw [this] at ha2
        simp only [decide_eq_false_iff_not, not_lt] at ha2
        exact absurd hvol (not_lt.mpr ha2)
      · have := hrest
        rw [hact] at this
        unfold readActive at this
        simp only [if_true] at this
        unfold audibleVoice at ha1
        rw [this] at ha1
        simp only [decide_eq_false_iff_not, not_lt] at ha1
        exact absurd hvol (not_lt.mpr ha1)

/-- Witness for C4 at a concrete mid-crossfade state. -/
theorem abortCrossfade_safe_any_time_witness :
    midCrossfadeState.crossfadeInProgress = true ∧
    (abortCrossfade midCrossfadeState).crossfadeInProgress = false ∧
    (readInactive (abortCrossfade midCrossfadeState)
      midCrossfadeState.voice1.isActive).audioH = none ∧
    ¬(audibleVoice (abortCrossfade midCrossfadeState).voice1 = false ∧
      audibleVoice (abortCrossfade midCrossfadeState).voice2 = false) :=
  ⟨rfl,
   ((abortCrossfade_safe_any_time midCrossfadeState).2 rfl).1,
   ((abortCrossfade_safe_any_time midCrossfadeState).2 rfl).2.2.2.1,
   ((abortCrossfade_safe_any_time midCrossfadeState).2 rfl).2.2.2.2.2.2.2
     (by decide) rfl (by decide)⟩

lemma aSeek_voiceFlags (s : APState) (t : ℚ) :
    (aSeek s t).voice1.isActive = s.voice1.isActive ∧
    (aSeek s t).voice2.isActive = s.voice2.isActive := by
  unfold aSeek aWriteActive aReadActive
  cases hact : s.voice1.isActive <;> simp only [hact] <;>
    (repeat' split) <;> exact ⟨hact, rfl⟩

/-- C10: `seek(t)` clamps the requested time to
`max 0 (min t (duration or 0))` on the active voice and changes nothing
else: a live `CrossfadeController` with a bound active element gets exactly
that position update; with no bound element (or after `destroy`) the call
changes nothing; and the active flags are never changed. The
`AudiophileCrossfadeController.seek` satisfies the same clamp law (it has
no destroyed guard). -/
theorem seek_clamps_position :
    (∀ (s : CCState) (t : ℚ),
      (s.isDestroyed = true → seek s t = s) ∧
      ((readActive s s.voice1.isActive).audioH = none → seek s t = s) ∧
      (∀ el, s.isDestroyed = false → (readActive s s.voice1.isActive).audioH = some el →
        seek s t = writeActive s s.voice1.isActive
          { readActive s s.voice1.isActive with
              audioH := some { el with
                currentTime := max 0 (min t (el.duration.getD 0)) } }) ∧
      ((seek s t).voice1.isActive = s.voice1.isActive ∧
       (seek s t).voice2.isActive = s.voice2.isActive)) ∧
    (∀ (s : APState) (t : ℚ),
      ((aReadActive s s.voice1.isActive).element = none → aSeek s t = s) ∧
      (∀ el, (aReadActive s s.voice1.isActive).element = some el →
        aSeek s t = aWriteActive s s.voice1.isActive
          { aReadActive s s.voice1.isActive with
              element := some { el with
                currentTime := max 0 (min t (el.duration.getD 0)) } }) ∧
      ((aSeek s t).voice1.isActive = s.voice1.isActive ∧
       (aSeek s t).voice2.isActive = s.voice2.isActive)) := by
  constructor
  · intro s t
    refine ⟨?_, ?_, ?_, seek_voiceFlags s t⟩
    · intro h
      unfold seek
      simp [h]
    · intro h
      simp only [seek, h]
      split <;> rfl
    · intro el hd hel
      simp only [seek, hd, hel, Bool.false_eq_true, if_false]
  · intro s t
    refine ⟨?_, ?_, aSeek_voiceFlags s t⟩
    · intro h
      simp only [aSeek, h]
    · intro el hel
      simp only [aSeek, hel]

/-- Witness for C10: seeking to 500 s in a 200 s track lands exactly at
200 s on the active voice of both controllers, and a seek with no bound
element changes nothing. -/
theorem seek_clamps_position_witness :
    seekSampleCC.isDestroyed = false ∧
    (readActive seekSampleCC seekSampleCC.voice1.isActive).audioH =
      some { src := "a", volume := 1, currentTime := 30, duration := some 200,
             paused := false } ∧
    seek seekSampleCC 500 = writeActive seekSampleCC seekSampleCC.voice1.isActive
      { readActive seekSampleCC seekSampleCC.voice1.isActive with
          audioH := some { src := "a", volume := 1, currentTime := max 0 (min 500 200),
                           duration := some 200, paused := false } } ∧
    (readActive initState initState.voice1.isActive).audioH = none ∧
    seek initState 500 = initState ∧
    aSeek seekSampleAP 500 = aWriteActive seekSampleAP seekSampleAP.voice1.isActive
      { aReadActive seekSampleAP seekSampleAP.voice1.isActive with
          element := some { src := "a", volume := 1, currentTime := max 0 (min 500 200),
                            duration := some 200, paused := false } } :=
  ⟨rfl, rfl,
   (seek_clamps_position.1 seekSampleCC 500).2.2.1
     { src := "a", volume := 1, currentTime := 30, duration := some 200, paused := false }
     rfl rfl,
   rfl,
   (seek_clamps_position.1 initState 500).2.1 rfl,
   (seek_clamps_position.2 seekSampleAP 500).2.1
     { src := "a", volume := 1, currentTime := 30, duration := some 200, paused := false }
     rfl⟩

lemma countLeadingNearZero_le_length (l : List ℚ) :
    countLeadingNearZero l ≤ l.length := by
  induction l with
  | nil => simp [countLeadingNearZero]
  | cons x rest ih =>
      unfold countLeadingNearZero
      split
      · simpa using ih
      · simp

lemma jsRound_scaled_nonneg (d : ℕ) : 0 ≤ jsRound ((d : ℚ) / (48000 / 44100)) := by
  unfold jsRound
  refine Int.le_floor.mpr ?_
  have hd : (0 : ℚ) ≤ (d : ℚ) := Nat.cast_nonneg d
  push_cast
  nlinarith

lemma jsRound_scaled_le (d : ℕ) : jsRound ((d : ℚ) / (48000 / 44100)) ≤ (d : ℤ) := by
  unfold jsRound
  refine Int.lt_add_one_iff.mp (Int.floor_lt.mpr ?_)
  have hd : (0 : ℚ) ≤ (d : ℚ) := Nat.cast_nonneg d
  push_cast
  nlinarith

/-- C5: the trim-point policy. With gapless markers, trims are exactly
encoder delay/padding divided by the configured 48 kHz sample rate;
without, trims are detected silence capped at 2 s per end, forced to 0
exactly when that side's detected fade exceeds 0.5 s. For metrics whose
gapless flag and encoder fields come from the detector's scans of a 48 kHz
buffer (the decode pipeline fixes the `OfflineAudioContext` at 48 kHz),
both gapless trims lie within `[0, duration]`. -/
theorem trim_points_policy :
    (∀ m : SilenceMetrics, m.hasGaplessMarkers = true →
        getTrimPoints m =
          { startTrim := m.encoderDelay / 48000, endTrim := m.encoderPadding / 48000 }) ∧
    (∀ m : SilenceMetrics, m.hasGaplessMarkers = false →
        getTrimPoints m =
          { startTrim := if m.startFadeIn > 1 / 2 then 0 else min m.startSilence 2
            endTrim := if m.endFadeOut > 1 / 2 then 0 else min m.endSilence 2 }) ∧
    (∀ (buf : ChannelBuffer) (m : SilenceMetrics),
        buf.sampleRate = 48000 →
        m.hasGaplessMarkers = checkGaplessMarkers buf →
        m.encoderDelay = (detectEncoderArtifacts buf).1 →
        m.encoderPadding = (detectEncoderArtifacts buf).2 →
        checkGaplessMarkers buf = true →
        0 ≤ (getTrimPoints m).startTrim ∧
        (getTrimPoints m).startTrim ≤ bufferDuration buf ∧
        0 ≤ (getTrimPoints m).endTrim ∧
        (getTrimPoints m).endTrim ≤ bufferDuration buf) := by
  have hbranch : ∀ m : SilenceMetrics, m.hasGaplessMarkers = true →
      getTrimPoints m =
        { startTrim := m.encoderDelay / 48000, endTrim := m.encoderPadding / 48000 } := by
    intro m h
    simp [getTrimPoints, h]
  refine ⟨hbranch, ?_, ?_⟩
  · intro m h
    simp [getTrimPoints, h]
  · intro buf m hsr hg hd hp hgap
    have hm := hbranch m (by rw [hg, hgap])
    rw [hm]
    have hlen48 : bufferDuration buf = (buf.samples.length : ℚ) / 48000 := by
      unfold bufferDuration
      rw [hsr]
    have hdelay : m.encoderDelay = ((jsRound ((countLeadingNearZero (buf.samples.take 3000) : ℚ) /
        (48000 / 44100))) : ℚ) := by
      rw [hd]
      unfold detectEncoderArtifacts
      rw [hsr]
    have hpad : m.encoderPadding = ((jsRound ((countLeadingNearZero (buf.samples.reverse.take 3000) : ℚ) /
        (48000 / 44100))) : ℚ) := by
      rw [hp]
      unfold detectEncoderArtifacts
      rw [hsr]
    have hdle : countLeadingNearZero (buf.samples.take 3000) ≤ buf.samples.length := by
      refine le_trans (countLeadingNearZero_le_length _) ?_
      rw [List.length_take]
      exact min_le_right _ _
    have hple : countLeadingNearZero (buf.samples.reverse.take 3000) ≤ buf.samples.length := by
      refine le_trans (countLeadingNearZero_le_length _) ?_
      rw [List.length_take]
      exact le_trans (min_le_right _ _) (le_of_eq (List.length_reverse _))
    have bound : ∀ d : ℕ, d ≤ buf.samples.length →
        0 ≤ ((jsRound ((d : ℚ) / (48000 / 44100))) : ℚ) / 48000 ∧
        ((jsRound ((d : ℚ) / (48000 / 44100))) : ℚ) / 48000 ≤
          (buf.samples.length : ℚ) / 48000 := by
      intro d hdn
      constructor
      · apply div_nonneg _ (by norm_num)
        exact_mod_cast jsRound_scaled_nonneg d
      · refine (div_le_div_right (by norm_num : (0 : ℚ) < 48000)).mpr ?_
        calc ((jsRound ((d : ℚ) / (48000 / 44100))) : ℚ) ≤ (d : ℚ) := by
              exact_mod_cast jsRound_scaled_le d
          _ ≤ (buf.samples.length : ℚ) := by exact_mod_cast hdn
    obtain ⟨b1, b2⟩ := bound _ hdle
    obtain ⟨b3, b4⟩ := bound _ hple
    rw [hlen48]
    rw [hdelay, hpad]
    exact ⟨b1, b2, b3, b4⟩

lemma gaplessSampleBuf_marks : checkGaplessMarkers gaplessSampleBuf = true := by
  unfold checkGaplessMarkers gaplessSampleBuf
  norm_num

/-- Witness for C5 at the concrete buffer and metrics. -/
theorem trim_points_policy_witness :
    gaplessSampleBuf.sampleRate = 48000 ∧
    checkGaplessMarkers gaplessSampleBuf = true ∧
    gaplessSampleMetrics.hasGaplessMarkers = true ∧
    fadeSampleMetrics.hasGaplessMarkers = false ∧
    getTrimPoints gaplessSampleMetrics =
      { startTrim := gaplessSampleMetrics.encoderDelay / 48000
        endTrim := gaplessSampleMetrics.encoderPadding / 48000 } ∧
    getTrimPoints fadeSampleMetrics =
      { startTrim := if fadeSampleMetrics.startFadeIn > 1 / 2 then 0
                     else min fadeSampleMetrics.startSilence 2
        endTrim := if fadeSampleMetrics.endFadeOut > 1 / 2 then 0
                   else min fadeSampleMetrics.endSilence 2 } ∧
    (0 ≤ (getTrimPoints gaplessSampleMetrics).startTrim ∧
     (getTrimPoints gaplessSampleMetrics).startTrim ≤ bufferDuration gaplessSampleBuf ∧
     0 ≤ (getTrimPoints gaplessSampleMetrics).endTrim ∧
     (getTrimPoints gaplessSampleMetrics).endTrim ≤ bufferDuration gaplessSampleBuf) :=
  ⟨rfl, gaplessSampleBuf_marks, gaplessSampleBuf_marks, rfl,
   trim_points_policy.1 gaplessSampleMetrics gaplessSampleBuf_marks,
   trim_points_policy.2.1 fadeSampleMetrics rfl,
   trim_points_policy.2.2 gaplessSampleBuf gaplessSampleMetrics rfl rfl rfl rfl
     gaplessSampleBuf_marks⟩

end Opus
